import Mathlib

/-!
Shallow embedding of `scripts/testPage.py` from the oath-uri repository.

The script is a linear generator: it clears and recreates the output
directory `oath_test_page` under the current working directory, resolves
the two external executables `oathuri` and `qrencode` against the
inherited PATH extended with the project build directory `../bin`,
then for each entry of a fixed test-case table invokes the URI tool,
invokes the QR renderer on the resulting URI (writing one PNG), records
a `<figure>` caption, and finally renders a fixed HTML template and
writes it to `index.html`.

External effects (executable lookup, process invocation, file writes)
are modelled by a `World` record of oracles; `main` maps a world to an
`Outcome` carrying the resulting output-directory state, the log
messages, and a trace of the effectful steps in execution order.
-/

namespace OathTestPage

/-- Absolute path test, as in POSIX `os.path`: the path starts with `/`. -/
def isAbs (p : String) : Bool :=
  match p.data with
  | '/' :: _ => true
  | _ => false

/-- POSIX `os.path.join` for two components: `b` replaces everything when
absolute, otherwise it is appended with a separator unless one is present. -/
def joinPath (a b : String) : String :=
  if isAbs b then b
  else if a = "" then a ++ b
  else match a.data.getLast? with
    | some '/' => a ++ b
    | _ => a ++ "/" ++ b

/-- Split a character list on `/` separators. -/
def splitSlash (cs : List Char) (cur : List Char) : List (List Char) :=
  match cs with
  | [] => [cur.reverse]
  | c :: rest => if c = '/' then cur.reverse :: splitSlash rest [] else splitSlash rest (c :: cur)

/-- Component normalisation of POSIX `os.path.normpath`: drop empty and `.`
components, and let `..` cancel a previous real component, keeping leading
`..` on relative paths and dropping `..` at the root of absolute paths. -/
def normParts (initialSlashes : Bool) : List (List Char) → List (List Char) → List (List Char)
  | [], acc => acc.reverse
  | comp :: rest, acc =>
    if comp = ([] : List Char) ∨ comp = ['.'] then normParts initialSlashes rest acc
    else if comp ≠ ['.', '.'] ∨ (¬ initialSlashes ∧ acc = []) ∨ (acc.headD [] = ['.', '.']) then
      normParts initialSlashes rest (comp :: acc)
    else
      match acc with
      | [] => normParts initialSlashes rest acc
      | _ :: tail => normParts initialSlashes rest tail

/-- POSIX `os.path.normpath`. -/
def normpath (p : String) : String :=
  if p = "" then "."
  else
    let cs := p.data
    let initialSlashes := isAbs p
    let rootSlashes : String :=
      match cs with
      | '/' :: '/' :: '/' :: _ => "/"
      | '/' :: '/' :: _ => "//"
      | '/' :: _ => "/"
      | _ => ""
    let comps := normParts initialSlashes (splitSlash cs []) []
    let joined := rootSlashes ++ String.intercalate "/" (comps.map (fun c => String.mk c))
    if joined = "" then "." else joined

/-- Constant publicly available secret key from the script. -/
def SECRET : String := "HXDMVJECJJWSRB3HWIZR4IFUGFTMXBOZ"

/-- One row of the `TEST_CASES` table: `"mode", 'hash', 'factor', 'digits'`,
bound in the loop as `for mode, algo, factor, digit in TEST_CASES`. -/
structure TestCase where
  mode : String
  algo : String
  factor : String
  digit : String

deriving instance DecidableEq, Repr for TestCase

/-- The fixed test-case table of the script. -/
def TEST_CASES : List TestCase := [
  ⟨"TOTP", "SHA1", "30", "6"⟩,
  ⟨"TOTP", "SHA1", "30", "7"⟩,
  ⟨"TOTP", "SHA1", "30", "8"⟩,
  ⟨"TOTP", "SHA1", "60", "6"⟩,
  ⟨"TOTP", "SHA256", "30", "6"⟩,
  ⟨"TOTP", "SHA512", "30", "6"⟩,
  ⟨"HOTP", "SHA1", "42", "6"⟩,
  ⟨"HOTP", "SHA1", "42", "7"⟩,
  ⟨"HOTP", "SHA1", "42", "8"⟩,
  ⟨"HOTP", "SHA256", "42", "6"⟩,
  ⟨"HOTP", "SHA512", "42", "6"⟩]

/-- `account = '{}-{}-{}-{}'.format(mode, algo, digit, factor)`. -/
def account (tc : TestCase) : String :=
  tc.mode ++ "-" ++ tc.algo ++ "-" ++ tc.digit ++ "-" ++ tc.factor

/-- `png = '{}.png'.format(account)`. -/
def pngName (tc : TestCase) : String := account tc ++ ".png"

/-- The argument list built for the `oathuri` invocation of one test case. -/
def args (tc : TestCase) : List String :=
  ["-0",
   "-m", tc.mode,
   "-d", tc.digit,
   (if tc.mode = "TOTP" then "-p" else "-c"), tc.factor,
   "-h", tc.algo,
   SECRET,
   account tc,
   "test"]

/-- The `<figure>` block recorded for one PNG/caption pair
(adjacent string literals of the source concatenated). -/
def figure (png acct : String) : String :=
  "<figure> <img src=\"" ++ png ++ "\" /> <figcaption>" ++ acct ++ "</figcaption></figure>"

/-- The figure block of one test case. -/
def figureOf (tc : TestCase) : String := figure (pngName tc) (account tc)

/-- The two header lines appended to `html_content` before the loop. -/
def htmlHeader : List String :=
  ["<h1>oathuri - OATH soft token test inputs</h1>",
   "<h3>Captions: [Type]-[Hash]-[OTP lenght]-[Time window/Counter]</h3>"]

/-- `HTML_TEMPLATE.format(content=...)`: the fixed page template with the
joined content substituted (literal braces of the CSS written escaped). -/
def HTML_TEMPLATE (content : String) : String :=
  "\n<!DOCTYPE html>\n<html>\n<head>\n  <title>oathuri - OATH Soft token test page</title>\n  <meta charset=\"UTF-8\">\n  <meta name=\"author\" content=\"Zoltan Puskas\">\n  <meta name=\"description\" content=\"OATH two-factor authenticator application test page\">\n  <meta name=\"keywords\" content=\"oathuri, OATH, OATH-URI, two-factor, authentication, QR code, test\">\n  <style>\n    .column-left\x7b float: left; width: 33%; text-align: center \x7d\n    .column-right\x7b float: right; width: 33%; text-align: center \x7d\n    .column-center\x7b display: inline-block; width: 33%; text-align: center \x7d\n  </style>\n</head>\n<body>\n  <div class=\"container\">\n    " ++ content ++ "\n  </div>\n</body>\n</html>\n"

/-- The column-number-to-DIV-style map `COL2DIV`. -/
def COL2DIV : List (Nat × String) :=
  [(0, "column-left"), (1, "column-center"), (2, "column-right")]

/-- Lookup in `COL2DIV` (total on the keys 0, 1, 2, the only ones used). -/
def colClass (c : Nat) : String := ((COL2DIV.lookup c).getD "")

/-- The three column accumulators `columns = {0: [], 1: [], 2: []}`. -/
structure Columns where
  c0 : List String
  c1 : List String
  c2 : List String

deriving instance DecidableEq, Repr for Columns

/-- `columns[cnt % 3].append(fig)`. -/
def Columns.push (cols : Columns) (cnt : Nat) (fig : String) : Columns :=
  if cnt % 3 = 0 then { cols with c0 := cols.c0 ++ [fig] }
  else if cnt % 3 = 1 then { cols with c1 := cols.c1 ++ [fig] }
  else { cols with c2 := cols.c2 ++ [fig] }

/-- Select a column accumulator by its number. -/
def Columns.col (cols : Columns) (c : Nat) : List String :=
  if c = 0 then cols.c0 else if c = 1 then cols.c1 else cols.c2

/-- The `for col, figures in columns.items()` loop: for each column, in
insertion order 0, 1, 2, append the opening DIV with its style, the joined
figures, and the closing DIV. -/
def columnBlocks (cols : Columns) : List String :=
  (List.map
    (fun p : Nat × List String =>
      ["<div class=" ++ colClass p.1 ++ ">", String.intercalate "\n" p.2, "</div>"])
    [(0, cols.c0), (1, cols.c1), (2, cols.c2)]).flatten

/-- State of the output directory `oath_test_page`: whether it exists, the
PNG files written into it (in order), and the content of `index.html` when
written. -/
structure FsState where
  outDirExists : Bool
  pngs : List String
  html : Option String

deriving instance DecidableEq, Repr for FsState

/-- The unhandled exceptions the script can propagate. -/
inductive Fault where
  /-- The `oathuri` invocation raised (e.g. a non-zero exit status). -/
  | oathuriError
  /-- The `sh.qrencode` attribute lookup against the plain inherited PATH
  raised `CommandNotFound`. -/
  | qrencodeNotFound
  /-- The `qrencode` invocation raised (e.g. a non-zero exit status). -/
  | qrencodeError
  /-- Opening or writing `index.html` failed. -/
  | writeError

deriving instance DecidableEq, Repr for Fault

/-- Trace events, one per effectful step, in execution order. -/
inductive Event where
  /-- The output directory was removed (when present) and recreated. -/
  | clearedDir
  /-- Both tool paths were resolved against the extended search path. -/
  | resolvedTools
  /-- `oathuri` was invoked with the given argument list. -/
  | ranOathuri (a : List String)
  /-- `qrencode` was invoked to write the given PNG file. -/
  | ranQrencode (png : String)
  /-- A figure block was recorded into a column. -/
  | recordedCaption (fig : String)
  /-- The HTML template was rendered with the joined content. -/
  | renderedTemplate
  /-- `index.html` was written to disk. -/
  | wroteHtml

deriving instance DecidableEq, Repr for Event

/-- Result of a run: normal completion, a handled `sys.exit`, or an
uncaught exception propagating out of `main`. -/
inductive Outcome where
  /-- `main` returned normally. -/
  | finished (fs : FsState) (tr : List Event)
  /-- `sys.exit(code)` was called after logging the given messages. -/
  | exited (code : Int) (logs : List String) (fs : FsState) (tr : List Event)
  /-- An exception escaped `main`. -/
  | raised (fault : Fault) (fs : FsState) (tr : List Event)

deriving instance DecidableEq, Repr for Outcome

/-- The trace of a run, whatever its outcome. -/
def Outcome.trace : Outcome → List Event
  | .finished _ tr => tr
  | .exited _ _ _ tr => tr
  | .raised _ _ tr => tr

/-- The environment a run executes in: the entries of the inherited PATH,
the current working directory, the prior state of the output directory,
an executable-lookup oracle (name, search path list), the behaviours of
the two external tools, and whether writing `index.html` succeeds. -/
structure World where
  pathEnv : List String
  cwd : String
  outExists : Bool
  prePngs : List String
  preHtml : Option String
  locate : String → List String → Bool
  oathuriRun : List String → Except Unit String
  qrencodeRun : List String → Except Unit Unit
  writeOk : Bool

/-- The output-directory state a run starts from (a directory that does not
exist has no contents). -/
def World.initialFs (w : World) : FsState :=
  { outDirExists := w.outExists,
    pngs := if w.outExists then w.prePngs else [],
    html := if w.outExists then w.preHtml else none }

/-- Lines 84-87: `shutil.rmtree` the output directory when it exists, then
`os.mkdir` it. -/
def clearAndCreate (fs : FsState) : FsState :=
  let removed := if fs.outDirExists then ⟨false, [], none⟩ else fs
  { removed with outDirExists := true }

/-- `PATHS`: the inherited PATH entries extended with
`os.path.normpath(os.path.join(os.getcwd(), '../bin'))`. -/
def extendedPaths (w : World) : List String :=
  w.pathEnv ++ [normpath (joinPath w.cwd "../bin")]

/-- `output_path = os.path.join(os.getcwd(), 'oath_test_page')`. -/
def outputPath (w : World) : String := joinPath w.cwd "oath_test_page"

/-- The try block of lines 94-99 succeeds exactly when both
`sh.Command('oathuri', PATHS)` and `sh.Command('qrencode', PATHS)` resolve. -/
def toolsLocated (w : World) : Bool :=
  w.locate "oathuri" (extendedPaths w) && w.locate "qrencode" (extendedPaths w)

/-- The message logged when either lookup fails. -/
def lookupErrMsg : String := "\"oathuri\" or \"qrencode\" were not found, cannot generate!"

/-- The trace events of one loop iteration on the success path. -/
def caseEvents (tc : TestCase) : List Event :=
  [.ranOathuri (args tc), .ranQrencode (pngName tc), .recordedCaption (figureOf tc)]

/-- The per-test-case loop of lines 108-135. Each iteration invokes the
resolved `oathuri` command with the built argument list, then invokes
`sh.qrencode` — the module-level attribute, which resolves `qrencode`
against the plain inherited PATH at call time, not the extended-path
command object resolved earlier — to write the PNG, and records the
figure block into column `cnt % 3`. Any tool fault aborts the run with
an uncaught exception. -/
def runCases (w : World) : List TestCase → Nat → Columns → FsState → List Event →
    Except (Fault × FsState × List Event) (Columns × FsState × List Event)
  | [], _, cols, fs, tr => .ok (cols, fs, tr)
  | tc :: rest, cnt, cols, fs, tr =>
    match w.oathuriRun (args tc) with
    | .error _ => .error (Fault.oathuriError, fs, tr ++ [Event.ranOathuri (args tc)])
    | .ok uri =>
      if w.locate "qrencode" w.pathEnv then
        match w.qrencodeRun ["-s", "5", "-o", joinPath (outputPath w) (pngName tc), uri] with
        | .error _ =>
          .error (Fault.qrencodeError, fs,
            tr ++ [Event.ranOathuri (args tc), Event.ranQrencode (pngName tc)])
        | .ok _ =>
          runCases w rest (cnt + 1) (cols.push cnt (figureOf tc))
            { fs with pngs := fs.pngs ++ [pngName tc] }
            (tr ++ caseEvents tc)
      else .error (Fault.qrencodeNotFound, fs, tr ++ [Event.ranOathuri (args tc)])

/-- The whole `main` of the script: clear and recreate the output
directory, resolve the two tools against the extended path (exiting with
`sys.exit(-1)` after logging when either lookup fails), run the per-case
loop, render the template on the joined content, and write `index.html`. -/
def main (w : World) : Outcome :=
  let fs0 := clearAndCreate w.initialFs
  if toolsLocated w then
    match runCases w TEST_CASES 0 ⟨[], [], []⟩ fs0 [Event.clearedDir, Event.resolvedTools] with
    | .error (f, fs, tr) => .raised f fs tr
    | .ok (cols, fs, tr) =>
      let doc := HTML_TEMPLATE (String.intercalate "\n" (htmlHeader ++ columnBlocks cols))
      if w.writeOk then
        .finished { fs with html := some doc } (tr ++ [Event.renderedTemplate, Event.wroteHtml])
      else .raised Fault.writeError fs (tr ++ [Event.renderedTemplate])
  else .exited (-1) [lookupErrMsg] fs0 [Event.clearedDir]

/-- Pure recomputation of one loop iteration's column/counter update. -/
def pureStep (st : Columns × Nat) (tc : TestCase) : Columns × Nat :=
  (st.1.push st.2 (figureOf tc), st.2 + 1)

/-- The columns a successful run ends with. -/
def finalColumns : Columns := (TEST_CASES.foldl pureStep (⟨[], [], []⟩, 0)).1

/-- The joined `html_content` of a successful run. -/
def finalContent : String :=
  String.intercalate "\n" (htmlHeader ++ columnBlocks finalColumns)

/-- The full `index.html` document of a successful run. -/
def finalHtml : String := HTML_TEMPLATE finalContent

/-- The output-directory state a successful run ends with. -/
def finalFs : FsState :=
  { outDirExists := true, pngs := TEST_CASES.map pngName, html := some finalHtml }

/-- The complete trace of a successful run. -/
def expectedTrace : List Event :=
  [.clearedDir, .resolvedTools] ++ (TEST_CASES.map caseEvents).flatten
    ++ [.renderedTemplate, .wroteHtml]

/-- The names of the files present in an output-directory state. -/
def fileNames (fs : FsState) : List String :=
  fs.pngs ++ (match fs.html with | some _ => ["index.html"] | none => [])

/-- A concrete healthy environment: both tools on the search path, both
invocations succeed, the write succeeds, no prior output directory. -/
def wOK : World :=
  { pathEnv := ["/usr/bin"],
    cwd := "/repo/scripts",
    outExists := false,
    prePngs := [],
    preHtml := none,
    locate := fun _ _ => true,
    oathuriRun := fun _ => .ok "otpauth://totp/first-世界",
    qrencodeRun := fun _ => .ok (),
    writeOk := true }

/-- A second healthy environment differing from `wOK` in the tool output
and in the prior state of the output directory. -/
def wOK2 : World :=
  { pathEnv := ["/usr/local/bin", "/usr/bin"],
    cwd := "/elsewhere",
    outExists := true,
    prePngs := ["stale.png"],
    preHtml := some "old page",
    locate := fun _ _ => true,
    oathuriRun := fun a => .ok (String.intercalate "+" a),
    qrencodeRun := fun _ => .ok (),
    writeOk := true }

/-- An environment in which neither executable can be located. -/
def wMissing : World :=
  { pathEnv := ["/usr/bin"],
    cwd := "/repo/scripts",
    outExists := true,
    prePngs := ["leftover.png"],
    preHtml := some "leftover",
    locate := fun _ _ => false,
    oathuriRun := fun _ => .ok "unused",
    qrencodeRun := fun _ => .ok (),
    writeOk := true }

/-- An environment in which both executables live only in the project
build directory `/repo/bin`: lookups against the extended search path
succeed, lookups against the plain inherited PATH fail. -/
def wBinOnly : World :=
  { pathEnv := ["/usr/bin"],
    cwd := "/repo/scripts",
    outExists := false,
    prePngs := [],
    preHtml := none,
    locate := fun _ ps => ps.contains "/repo/bin",
    oathuriRun := fun _ => .ok "otpauth://totp/from-bin",
    qrencodeRun := fun _ => .ok (),
    writeOk := true }

/-- Whatever was in the output directory before, the run starts from an
empty, existing output directory. -/
theorem clearAndCreate_initialFs (w : World) :
    clearAndCreate w.initialFs = { outDirExists := true, pngs := [], html := none } := by
  cases h : w.outExists <;> simp [clearAndCreate, World.initialFs, h]

/-- A successful pass over a case list appends one PNG per case, touches
nothing else in the directory state, distributes the figures exactly as
the pure column fold does, and extends the trace by the per-case events. -/
theorem runCases_ok_spec (w : World) :
    ∀ (l : List TestCase) (cnt : Nat) (cols : Columns) (fs : FsState) (tr : List Event)
      (cols' : Columns) (fs' : FsState) (tr' : List Event),
      runCases w l cnt cols fs tr = .ok (cols', fs', tr') →
      cols' = (l.foldl pureStep (cols, cnt)).1 ∧
      fs'.outDirExists = fs.outDirExists ∧
      fs'.pngs = fs.pngs ++ l.map pngName ∧
      fs'.html = fs.html ∧
      tr' = tr ++ (l.map caseEvents).flatten := by
  intro l
  induction l with
  | nil =>
    intro cnt cols fs tr cols' fs' tr' h
    simp only [runCases, Except.ok.injEq, Prod.mk.injEq] at h
    obtain ⟨h1, h2, h3⟩ := h
    subst h1; subst h2; subst h3
    simp [List.foldl]
  | cons tc rest ih =>
    intro cnt cols fs tr cols' fs' tr' h
    simp only [runCases] at h
    cases hr : w.oathuriRun (args tc) with
    | error e => rw [hr] at h; simp at h
    | ok uri =>
      rw [hr] at h
      cases hq : w.locate "qrencode" w.pathEnv with
      | false => rw [hq] at h; simp at h
      | true =>
        rw [hq] at h
        simp only [if_true] at h
        cases hqr : w.qrencodeRun ["-s", "5", "-o", joinPath (outputPath w) (pngName tc), uri] with
        | error e => rw [hqr] at h; simp at h
        | ok u =>
          rw [hqr] at h
          obtain ⟨hc, ho, hp, hh, ht⟩ := ih _ _ _ _ _ _ _ h
          refine ⟨?_, by simpa using ho, ?_, by simpa using hh, ?_⟩
          · rw [hc]; rfl
          · rw [hp]; simp
          · rw [ht]; simp [caseEvents]

/-- A failing pass leaves a trace that follows the expected event order:
it is an initial segment of the full per-case event sequence. -/
theorem runCases_error_trace (w : World) :
    ∀ (l : List TestCase) (cnt : Nat) (cols : Columns) (fs : FsState) (tr : List Event)
      (f : Fault) (fs' : FsState) (tr' : List Event),
      runCases w l cnt cols fs tr = .error (f, fs', tr') →
      tr' <+: tr ++ (l.map caseEvents).flatten := by
  intro l
  induction l with
  | nil =>
    intro cnt cols fs tr f fs' tr' h
    simp [runCases] at h
  | cons tc rest ih =>
    intro cnt cols fs tr f fs' tr' h
    simp only [runCases] at h
    cases hr : w.oathuriRun (args tc) with
    | error e =>
      rw [hr] at h
      simp only [Except.error.injEq, Prod.mk.injEq] at h
      obtain ⟨-, -, h3⟩ := h
      subst h3
      exact ⟨[Event.ranQrencode (pngName tc), Event.recordedCaption (figureOf tc)]
        ++ (rest.map caseEvents).flatten, by simp [caseEvents]⟩
    | ok uri =>
      rw [hr] at h
      cases hq : w.locate "qrencode" w.pathEnv with
      | false =>
        rw [hq] at h
        simp only [Bool.false_eq_true, if_false, Except.error.injEq, Prod.mk.injEq] at h
        obtain ⟨-, -, h3⟩ := h
        subst h3
        exact ⟨[Event.ranQrencode (pngName tc), Event.recordedCaption (figureOf tc)]
          ++ (rest.map caseEvents).flatten, by simp [caseEvents]⟩
      | true =>
        rw [hq] at h
        simp only [if_true] at h
        cases hqr : w.qrencodeRun ["-s", "5", "-o", joinPath (outputPath w) (pngName tc), uri] with
        | error e =>
          rw [hqr] at h
          simp only [Except.error.injEq, Prod.mk.injEq] at h
          obtain ⟨-, -, h3⟩ := h
          subst h3
          exact ⟨[Event.recordedCaption (figureOf tc)] ++ (rest.map caseEvents).flatten,
            by simp [caseEvents]⟩
        | ok u =>
          rw [hqr] at h
          have := ih _ _ _ _ _ _ _ h
          simpa [caseEvents] using this

/-- A run that finishes ends in the canonical directory state and leaves
the canonical complete trace, independent of the world it ran in. -/
theorem main_finished_spec (w : World) (fs : FsState) (tr : List Event)
    (h : main w = .finished fs tr) : fs = finalFs ∧ tr = expectedTrace := by
  simp only [main, clearAndCreate_initialFs] at h
  split at h
  · split at h
    · simp at h
    · rename_i cols fs1 tr1 heq
      obtain ⟨hc, ho, hp, hh, ht⟩ := runCases_ok_spec w _ _ _ _ _ _ _ _ heq
      split at h
      · simp only [Outcome.finished.injEq] at h
        obtain ⟨h1, h2⟩ := h
        subst h1; subst h2
        constructor
        · cases fs1 with
          | mk a b c =>
            simp only at ho hp hh
            simp [finalFs, ho, hp, hh, hc, finalHtml, finalContent, finalColumns]
        · rw [ht]; simp [expectedTrace]
      · simp at h
  · simp at h

/-- Every run's trace is an initial segment of the canonical complete
trace: the effectful steps always happen in the same linear order. -/
theorem main_trace_bound (w : World) : (main w).trace <+: expectedTrace := by
  simp only [main, clearAndCreate_initialFs]
  split
  · split
    · rename_i f fs tr heq
      have h1 := runCases_error_trace w _ _ _ _ _ _ _ _ heq
      have h2 : ([Event.clearedDir, Event.resolvedTools] ++ (TEST_CASES.map caseEvents).flatten)
          <+: expectedTrace :=
        ⟨[Event.renderedTemplate, Event.wroteHtml], by simp [expectedTrace]⟩
      exact h1.trans h2
    · rename_i cols fs1 tr1 heq
      obtain ⟨hc, ho, hp, hh, ht⟩ := runCases_ok_spec w _ _ _ _ _ _ _ _ heq
      split
      · simp only [Outcome.trace]
        rw [ht]
        exact ⟨[], by simp [expectedTrace]⟩
      · simp only [Outcome.trace]
        rw [ht]
        exact ⟨[Event.wroteHtml], by simp [expectedTrace]⟩
  · exact ⟨[Event.resolvedTools] ++ (TEST_CASES.map caseEvents).flatten
      ++ [Event.renderedTemplate, Event.wroteHtml], by simp [expectedTrace, Outcome.trace]⟩

/-- C1: a finished run writes exactly one PNG per entry of the test-case
table, named `<account>.png`, and records exactly one caption entry per
entry — a figure block holding the account label as its figcaption whose
img src is the bare PNG filename — into the columns joined into
`index.html`. -/
theorem C1_one_png_and_one_caption_per_case (w : World) (fs : FsState) (tr : List Event)
    (h : main w = .finished fs tr) :
    fs.pngs = TEST_CASES.map pngName ∧
    (∀ tc ∈ TEST_CASES, fs.pngs.count (pngName tc) = 1) ∧
    fs.html = some (HTML_TEMPLATE (String.intercalate "\n" (htmlHeader ++ columnBlocks finalColumns))) ∧
    (∀ tc ∈ TEST_CASES,
      pngName tc = account tc ++ ".png" ∧
      figureOf tc = "<figure> <img src=\"" ++ pngName tc ++ "\" /> <figcaption>"
        ++ account tc ++ "</figcaption></figure>" ∧
      (finalColumns.c0 ++ finalColumns.c1 ++ finalColumns.c2).count (figureOf tc) = 1) := by
  obtain ⟨hfs, -⟩ := main_finished_spec w fs tr h
  subst hfs
  exact ⟨rfl, by decide, rfl, by decide⟩

/-- Witness for C1 at the concrete healthy world `wOK`. -/
theorem C1_one_png_and_one_caption_per_case_witness :
    finalFs.pngs = TEST_CASES.map pngName :=
  (C1_one_png_and_one_caption_per_case wOK finalFs expectedTrace rfl).1

/-- C2: when either executable cannot be located, the run logs the error
message and exits with the non-zero status `-1`; that lookup failure is
the only handled failure — a run never exits through the handler in any
other circumstance, and every other fault leaves `main` as an uncaught
exception (`Outcome.raised`), which can only happen once the lookup has
succeeded. -/
theorem C2_lookup_failure_is_only_handled_failure (w : World) :
    (toolsLocated w = false →
      main w = .exited (-1) [lookupErrMsg]
        { outDirExists := true, pngs := [], html := none } [Event.clearedDir] ∧ (-1 : Int) ≠ 0) ∧
    (∀ c logs fs tr, main w = .exited c logs fs tr → toolsLocated w = false ∧ c ≠ 0) ∧
    (∀ f fs tr, main w = .raised f fs tr → toolsLocated w = true) := by
  by_cases hloc : toolsLocated w = true
  · refine ⟨fun hfalse => absurd hloc (by simp [hfalse]), ?_, fun _ _ _ _ => hloc⟩
    intro c logs fs tr h
    exfalso
    simp only [main, clearAndCreate_initialFs, hloc, if_true] at h
    split at h
    · simp at h
    · split at h
      · simp at h
      · simp at h
  · have hl : toolsLocated w = false := by simpa using hloc
    have hmain : main w = .exited (-1) [lookupErrMsg]
        { outDirExists := true, pngs := [], html := none } [Event.clearedDir] := by
      simp only [main, clearAndCreate_initialFs, hl]
      simp
    refine ⟨fun _ => ⟨hmain, by decide⟩, ?_, ?_⟩
    · intro c logs fs tr h
      rw [hmain] at h
      simp only [Outcome.exited.injEq] at h
      obtain ⟨h1, -, -, -⟩ := h
      exact ⟨hl, by rw [← h1]; decide⟩
    · intro f fs tr h
      rw [hmain] at h
      simp at h

/-- Witness for C2 at the concrete world `wMissing`, where neither tool
can be located. -/
theorem C2_lookup_failure_is_only_handled_failure_witness :
    main wMissing = .exited (-1) [lookupErrMsg]
      { outDirExists := true, pngs := [], html := none } [Event.clearedDir] :=
  ((C2_lookup_failure_is_only_handled_failure wMissing).1 rfl).1

/-- C3, evaluated at the failing environment `wBinOnly` (both tools
installed only in the project build directory `/repo/bin`): the startup
resolution of both tools against the extended search path succeeds, yet
the run raises an uncaught lookup failure at the first `qrencode`
invocation, because line 126 calls the module-level `sh.qrencode`, which
resolves against the plain inherited PATH at call time instead of the
extended-path command object resolved at line 96 (and never used). The
claim that every invocation of each tool goes through a command resolved
against the extended path is therefore false of the code. -/
theorem C3_qrencode_invocation_bypasses_extended_path :
    toolsLocated wBinOnly = true ∧
    wBinOnly.locate "qrencode" (extendedPaths wBinOnly) = true ∧
    wBinOnly.locate "qrencode" wBinOnly.pathEnv = false ∧
    main wBinOnly = .raised Fault.qrencodeNotFound
      { outDirExists := true, pngs := [], html := none }
      [Event.clearedDir, Event.resolvedTools,
       Event.ranOathuri (args ⟨"TOTP", "SHA1", "30", "6"⟩)] :=
  ⟨rfl, rfl, rfl, rfl⟩

/-- C4: a run aborted by a missing dependency tool exits with the
non-zero status `-1`, and the output directory at that point exists and
is empty — its only mutation was the deletion of any previous contents
and its recreation; no PNG and no HTML file was written. -/
theorem C4_missing_tool_leaves_empty_fresh_directory (w : World)
    (h : toolsLocated w = false) :
    main w = .exited (-1) [lookupErrMsg]
      { outDirExists := true, pngs := [], html := none } [Event.clearedDir] ∧
    ∀ c logs fs tr, main w = .exited c logs fs tr →
      c ≠ 0 ∧ fs.outDirExists = true ∧ fs.pngs = [] ∧ fs.html = none := by
  have hmain : main w = .exited (-1) [lookupErrMsg]
      { outDirExists := true, pngs := [], html := none } [Event.clearedDir] := by
    simp only [main, clearAndCreate_initialFs, h]
    simp
  refine ⟨hmain, ?_⟩
  intro c logs fs tr hexit
  rw [hmain] at hexit
  simp only [Outcome.exited.injEq] at hexit
  obtain ⟨h1, -, h3, -⟩ := hexit
  rw [← h1, ← h3]
  exact ⟨by decide, rfl, rfl, rfl⟩

/-- Witness for C4 at the concrete world `wMissing`, whose output
directory previously held a PNG and an `index.html`. -/
theorem C4_missing_tool_leaves_empty_fresh_directory_witness :
    main wMissing = .exited (-1) [lookupErrMsg]
      { outDirExists := true, pngs := [], html := none } [Event.clearedDir] :=
  (C4_missing_tool_leaves_empty_fresh_directory wMissing rfl).1

/-- C5: the account labels derived from the table — formatted as
mode-hash-digits-factor — are pairwise distinct across the eleven test
cases, and each is used both as the account identity handed to the URI
tool (the second-to-last argument, between the shared secret and the
issuer) and as the stem of the PNG filename. -/
theorem C5_account_labels_distinct_and_doubly_used :
    (TEST_CASES.map account).Nodup ∧
    ∀ tc ∈ TEST_CASES,
      account tc = tc.mode ++ "-" ++ tc.algo ++ "-" ++ tc.digit ++ "-" ++ tc.factor ∧
      (∃ flags, args tc = flags ++ [SECRET, account tc, "test"]) ∧
      pngName tc = account tc ++ ".png" := by
  refine ⟨by decide, ?_⟩
  intro tc _
  exact ⟨rfl,
    ⟨["-0", "-m", tc.mode, "-d", tc.digit,
      (if tc.mode = "TOTP" then "-p" else "-c"), tc.factor, "-h", tc.algo], rfl⟩,
    rfl⟩

/-- Witness for C5 at the first table entry. -/
theorem C5_account_labels_distinct_and_doubly_used_witness :
    (TEST_CASES.map account).Nodup ∧
    pngName ⟨"TOTP", "SHA1", "30", "6"⟩ = account ⟨"TOTP", "SHA1", "30", "6"⟩ ++ ".png" :=
  ⟨C5_account_labels_distinct_and_doubly_used.1,
   (C5_account_labels_distinct_and_doubly_used.2 ⟨"TOTP", "SHA1", "30", "6"⟩ (by decide)).2.2⟩

/-- C6: for every test case the `oathuri` argument list carries the mode
flag with the case's mode, the digit-count flag with its digit count, the
hash-algorithm flag with its hash algorithm, the time-step flag `-p` with
the factor when the mode is TOTP and the counter flag `-c` with the
factor otherwise, and ends with the shared secret, the account label, and
the issuer `test`. -/
theorem C6_oathuri_argument_list_shape (tc : TestCase) :
    ["-m", tc.mode] <:+: args tc ∧
    ["-d", tc.digit] <:+: args tc ∧
    ["-h", tc.algo] <:+: args tc ∧
    (if tc.mode = "TOTP" then ["-p", tc.factor] else ["-c", tc.factor]) <:+: args tc ∧
    ∃ flags, args tc = flags ++ [SECRET, account tc, "test"] := by
  refine ⟨⟨["-0"], ["-d", tc.digit, (if tc.mode = "TOTP" then "-p" else "-c"), tc.factor,
      "-h", tc.algo, SECRET, account tc, "test"], rfl⟩,
    ⟨["-0", "-m", tc.mode], [(if tc.mode = "TOTP" then "-p" else "-c"), tc.factor,
      "-h", tc.algo, SECRET, account tc, "test"], rfl⟩,
    ⟨["-0", "-m", tc.mode, "-d", tc.digit, (if tc.mode = "TOTP" then "-p" else "-c"), tc.factor],
      [SECRET, account tc, "test"], rfl⟩,
    ?_,
    ⟨["-0", "-m", tc.mode, "-d", tc.digit,
      (if tc.mode = "TOTP" then "-p" else "-c"), tc.factor, "-h", tc.algo], rfl⟩⟩
  by_cases h : tc.mode = "TOTP"
  · rw [if_pos h]
    exact ⟨["-0", "-m", tc.mode, "-d", tc.digit],
      ["-h", tc.algo, SECRET, account tc, "test"], by simp [args, h]⟩
  · rw [if_neg h]
    exact ⟨["-0", "-m", tc.mode, "-d", tc.digit],
      ["-h", tc.algo, SECRET, account tc, "test"], by simp [args, h]⟩

/-- C7: every run starts by deleting the output directory (with whatever
it held) when present and recreating it empty, and any two finished runs
— in particular a run repeated twice in succession — leave the same set
of file names in the directory. -/
theorem C7_directory_recreated_and_structurally_idempotent :
    (∀ w : World, clearAndCreate w.initialFs = { outDirExists := true, pngs := [], html := none }) ∧
    (∀ w fs tr, main w = .finished fs tr → fileNames fs = fileNames finalFs) ∧
    (∀ w₁ w₂ fs₁ tr₁ fs₂ tr₂, main w₁ = .finished fs₁ tr₁ → main w₂ = .finished fs₂ tr₂ →
      fileNames fs₁ = fileNames fs₂) := by
  refine ⟨clearAndCreate_initialFs, ?_, ?_⟩
  · intro w fs tr h
    rw [(main_finished_spec w fs tr h).1]
  · intro w₁ w₂ fs₁ tr₁ fs₂ tr₂ h₁ h₂
    rw [(main_finished_spec w₁ fs₁ tr₁ h₁).1, (main_finished_spec w₂ fs₂ tr₂ h₂).1]

/-- Witness for C7: the healthy worlds `wOK` (no prior directory) and
`wOK2` (stale prior directory contents) leave the same file names. -/
theorem C7_directory_recreated_and_structurally_idempotent_witness :
    clearAndCreate wOK2.initialFs = { outDirExists := true, pngs := [], html := none } ∧
    fileNames finalFs = fileNames finalFs :=
  ⟨C7_directory_recreated_and_structurally_idempotent.1 wOK2,
   C7_directory_recreated_and_structurally_idempotent.2.2 wOK wOK2
     finalFs expectedTrace finalFs expectedTrace rfl rfl⟩

/-- C8: the program is one linear procedure — clear the directory,
resolve the tools, then per test case invoke `oathuri`, invoke
`qrencode`, record the caption, then render the template and write the
page. Every run's event trace is an initial segment of that fixed
sequence, and a finished run's trace is exactly the full sequence. -/
theorem C8_single_linear_procedure (w : World) :
    (main w).trace <+: expectedTrace ∧
    ∀ fs tr, main w = .finished fs tr → tr = expectedTrace := by
  exact ⟨main_trace_bound w, fun fs tr h => (main_finished_spec w fs tr h).2⟩

/-- Witness for C8 at the concrete healthy world `wOK`. -/
theorem C8_single_linear_procedure_witness :
    (main wOK).trace <+: expectedTrace ∧ expectedTrace = expectedTrace :=
  ⟨(C8_single_linear_procedure wOK).1,
   (C8_single_linear_procedure wOK).2 finalFs expectedTrace rfl⟩

/-- C9: the textual content of `index.html` is identical across all
finished runs and does not depend on either tool's output: it equals the
fixed template applied to the content built only from the headers, the
fixed column map, and the figure blocks of `finalColumns`, which are
derived from the test-case table alone. -/
theorem C9_html_independent_of_tool_output (w₁ w₂ : World) (fs₁ fs₂ : FsState)
    (tr₁ tr₂ : List Event)
    (h₁ : main w₁ = .finished fs₁ tr₁) (h₂ : main w₂ = .finished fs₂ tr₂) :
    fs₁.html = fs₂.html ∧
    fs₁.html = some (HTML_TEMPLATE (String.intercalate "\n" (htmlHeader ++ columnBlocks finalColumns))) := by
  rw [(main_finished_spec w₁ fs₁ tr₁ h₁).1, (main_finished_spec w₂ fs₂ tr₂ h₂).1]
  exact ⟨rfl, rfl⟩

/-- Witness for C9: `wOK` and `wOK2` have different `oathuri` outputs and
different prior directory states, yet produce the same page. -/
theorem C9_html_independent_of_tool_output_witness :
    finalFs.html = finalFs.html ∧
    finalFs.html = some (HTML_TEMPLATE (String.intercalate "\n" (htmlHeader ++ columnBlocks finalColumns))) :=
  C9_html_independent_of_tool_output wOK wOK2 finalFs finalFs expectedTrace expectedTrace rfl rfl

/-- C10: the figures are distributed round-robin — the i-th test case's
figure lands in column i mod 3 — the columns hold 4, 4 and 3 figures for
the eleven configured cases, and the page emits the columns in the fixed
order left, center, right. -/
theorem C10_round_robin_column_distribution :
    finalColumns.c0.length = 4 ∧ finalColumns.c1.length = 4 ∧ finalColumns.c2.length = 3 ∧
    (∀ i : Fin TEST_CASES.length, figureOf (TEST_CASES.get i) ∈ finalColumns.col (i.val % 3)) ∧
    columnBlocks finalColumns =
      ["<div class=" ++ colClass 0 ++ ">", String.intercalate "\n" finalColumns.c0, "</div>",
       "<div class=" ++ colClass 1 ++ ">", String.intercalate "\n" finalColumns.c1, "</div>",
       "<div class=" ++ colClass 2 ++ ">", String.intercalate "\n" finalColumns.c2, "</div>"] ∧
    colClass 0 = "column-left" ∧ colClass 1 = "column-center" ∧ colClass 2 = "column-right" :=
  ⟨rfl, rfl, rfl, by decide, rfl, rfl, rfl, rfl⟩

end OathTestPage
